import Mathlib

/-
Verification of the MLflow service supervisor (main.py, config/settings.py,
utils/gcp_auth.py) via a shallow embedding.  Python strings are modelled as
lists of characters so that the string operations used by the code
(strip, split, lower, substring membership, endswith, concatenation) can be
defined executably and reasoned about by induction.  External effects
(subprocess outcomes, the network, the filesystem, the secret store, the
cloud SDK) are passed in as explicit oracle parameters.
-/

namespace MlflowService

/-- Python str modelled as a list of characters. -/
abbrev PyStr := List Char

/-- Turn a Lean string literal into the PyStr model. -/
def pystr (s : String) : PyStr := s.data

/-- The ASCII whitespace characters stripped by Python str.strip with no
argument (tab, newline, vertical tab, form feed, carriage return, space). -/
def pyWhitespace : List Char :=
  [Char.ofNat 9, Char.ofNat 10, Char.ofNat 11, Char.ofNat 12, Char.ofNat 13, Char.ofNat 32]

/-- Python s.strip(chars): remove leading and trailing characters drawn from
the given set. -/
def pyStripChars (cs : List Char) (s : PyStr) : PyStr :=
  ((s.dropWhile (· ∈ cs)).reverse.dropWhile (· ∈ cs)).reverse

/-- Python s.strip() with no argument: strip whitespace from both ends. -/
def pyStrip (s : PyStr) : PyStr := pyStripChars pyWhitespace s

/-- The two quote characters of the Python literal used at settings.py line 73,
a single quote (code point 39) and a double quote. -/
def quoteChars : List Char := [Char.ofNat 39, '"']

/-- Python s.lower(), restricted to the ASCII case mapping the code relies on. -/
def pyLower (s : PyStr) : PyStr := s.map Char.toLower

/-- needle is a prefix of hay (helper for substring containment). -/
def pyStarts : PyStr → PyStr → Bool
  | [], _ => true
  | _ :: _, [] => false
  | a :: n, b :: h => a == b && pyStarts n h

/-- Python needle in hay for strings: substring containment. -/
def pyContains (needle : PyStr) : PyStr → Bool
  | [] => pyStarts needle []
  | c :: rest => pyStarts needle (c :: rest) || pyContains needle rest

/-- Python s.split(sep) for a one-character separator: splits at every
occurrence and keeps empty fragments, so the result is never empty. -/
def pySplit (sep : Char) : PyStr → List PyStr
  | [] => [[]]
  | c :: rest =>
    match pySplit sep rest with
    | [] => [[]]
    | h :: t => if c = sep then [] :: h :: t else (c :: h) :: t

/-- Python s.endswith(c) for a one-character suffix. -/
def pyEndsWith (c : Char) (s : PyStr) : Bool := s.getLast? == some c

/-- Decimal rendering of a natural number, for Python f-string interpolation
of the integer POSTGRES_PORT field. -/
def natStr (n : Nat) : PyStr := (Nat.repr n).data

/-
Settings (src/config/settings.py).  Required pydantic fields have no default;
optional ones carry the defaults declared in MLflowServiceSettings.
-/

/-- The validated settings object produced by pydantic
(MLflowServiceSettings, settings.py lines 13 to 59). -/
structure Settings where
  MLFLOW_TRACKING_PORT : Nat := 5001
  MLFLOW_HOST : PyStr := pystr "0.0.0.0"
  PORT : Option Nat := none
  POSTGRES_HOST : PyStr
  POSTGRES_PORT : Nat
  POSTGRES_DB : PyStr
  POSTGRES_USER : PyStr
  POSTGRES_PASSWORD : PyStr
  MLFLOW_POSTGRES_CONNECTION_STRING : Option PyStr := none
  MLFLOW_BUCKET_LOCATION : PyStr
  MLFLOW_FOLDER_LOCATION : PyStr := pystr "mlflow-artifacts-v1"
  GCP_PROJECT : PyStr
  GOOGLE_APPLICATION_CREDENTIALS : Option PyStr := none
  USE_GCP_INTERACTIVE_AUTH : Bool := false
deriving DecidableEq, Repr

/-- The raw environment key/value surface the settings are resolved from;
a missing variable is none. -/
structure RawEnv where
  MLFLOW_TRACKING_PORT : Option Nat := none
  MLFLOW_HOST : Option PyStr := none
  PORT : Option Nat := none
  POSTGRES_HOST : Option PyStr := none
  POSTGRES_PORT : Option Nat := none
  POSTGRES_DB : Option PyStr := none
  POSTGRES_USER : Option PyStr := none
  POSTGRES_PASSWORD : Option PyStr := none
  MLFLOW_POSTGRES_CONNECTION_STRING : Option PyStr := none
  MLFLOW_BUCKET_LOCATION : Option PyStr := none
  MLFLOW_FOLDER_LOCATION : Option PyStr := none
  GCP_PROJECT : Option PyStr := none
  GOOGLE_APPLICATION_CREDENTIALS : Option PyStr := none
  USE_GCP_INTERACTIVE_AUTH : Option Bool := none
deriving DecidableEq, Repr

/-- Construction-time failure of the settings resolver: pydantic rejects the
environment when a required field (declared with Field(...) and no default)
is absent.  The spec calls this ConfigError. -/
inductive ConfigError where
  | missingRequiredField
deriving DecidableEq, Repr

/-- Settings resolution (the pydantic construction of MLflowServiceSettings):
every Field(..., no default) must be present or construction fails before
anything else runs. -/
def mkSettings (e : RawEnv) : Except ConfigError Settings :=
  match e.POSTGRES_HOST, e.POSTGRES_PORT, e.POSTGRES_DB, e.POSTGRES_USER,
        e.POSTGRES_PASSWORD, e.MLFLOW_BUCKET_LOCATION, e.GCP_PROJECT with
  | some h, some p, some db, some u, some pw, some bucket, some proj =>
    .ok {
      MLFLOW_TRACKING_PORT := e.MLFLOW_TRACKING_PORT.getD 5001
      MLFLOW_HOST := e.MLFLOW_HOST.getD (pystr "0.0.0.0")
      PORT := e.PORT
      POSTGRES_HOST := h
      POSTGRES_PORT := p
      POSTGRES_DB := db
      POSTGRES_USER := u
      POSTGRES_PASSWORD := pw
      MLFLOW_POSTGRES_CONNECTION_STRING := e.MLFLOW_POSTGRES_CONNECTION_STRING
      MLFLOW_BUCKET_LOCATION := bucket
      MLFLOW_FOLDER_LOCATION := e.MLFLOW_FOLDER_LOCATION.getD (pystr "mlflow-artifacts-v1")
      GCP_PROJECT := proj
      GOOGLE_APPLICATION_CREDENTIALS := e.GOOGLE_APPLICATION_CREDENTIALS
      USE_GCP_INTERACTIVE_AUTH := e.USE_GCP_INTERACTIVE_AUTH.getD false }
  | _, _, _, _, _, _, _ => .error .missingRequiredField

/-- The URI composed from the discrete PostgreSQL fields
(settings.py lines 77 to 80). -/
def composedPostgresUri (s : Settings) : PyStr :=
  pystr "postgresql+psycopg2://" ++ s.POSTGRES_USER ++ [':'] ++ s.POSTGRES_PASSWORD
    ++ ['@'] ++ s.POSTGRES_HOST ++ [':'] ++ natStr s.POSTGRES_PORT
    ++ ['/'] ++ s.POSTGRES_DB

/-- backend_store_uri property (settings.py lines 62 to 80): use the explicit
connection string when it is truthy and non-blank, stripping whitespace and
then quote characters from both ends; otherwise compose from discrete fields. -/
def backend_store_uri (s : Settings) : PyStr :=
  match s.MLFLOW_POSTGRES_CONNECTION_STRING with
  | some cs =>
    if cs ≠ [] ∧ pyStrip cs ≠ [] then pyStripChars quoteChars (pyStrip cs)
    else composedPostgresUri s
  | none => composedPostgresUri s

/-- The core join of artifact_root (settings.py lines 82 to 95): skip the
join when the folder is truthy and already a path segment of the bucket,
else append it, inserting a slash unless the bucket already ends in one. -/
def artifactJoin (bucket folder : PyStr) : PyStr :=
  if folder ≠ [] ∧ folder ∈ pySplit '/' bucket then bucket
  else if pyEndsWith '/' bucket = false then bucket ++ '/' :: folder
  else bucket ++ folder

/-- artifact_root property (settings.py lines 82 to 95). -/
def artifact_root (s : Settings) : PyStr :=
  artifactJoin s.MLFLOW_BUCKET_LOCATION s.MLFLOW_FOLDER_LOCATION

/-- effective_port property (settings.py lines 119 to 122): PORT when present,
else MLFLOW_TRACKING_PORT. -/
def effective_port (s : Settings) : Nat :=
  s.PORT.getD s.MLFLOW_TRACKING_PORT

/-
Schema migrator (main.py, upgrade_database_schema, lines 243 to 302).
The external subprocess run is abstracted as one of three observable
outcomes: it completed with an exit code and captured output, the 60 second
timeout expired (subprocess.TimeoutExpired), or some other exception was
raised before a result was available.
-/

/-- Observable outcome of running the external migration subcommand. -/
inductive MigrationOutcome where
  | completed (returncode : Int) (stdout stderr : PyStr)
  | timedOut
  | raisedUnexpected
deriving DecidableEq, Repr

/-- The bounded timeout passed to subprocess.run at main.py line 265. -/
def migrationTimeoutSeconds : Nat := 60

/-- The stderr classification at main.py line 286: the stripped, lowercased
stderr contains "does not exist" or "operationalerror".  This is the
"database/relation does not exist" pattern of the spec. -/
def stderrIndicatesMissingDatabase (stderr : PyStr) : Bool :=
  let lower_err := pyLower (pyStrip stderr)
  pyContains (pystr "does not exist") lower_err
    || pyContains (pystr "operationalerror") lower_err

/-- upgrade_database_schema (main.py lines 243 to 302): returns the proceed
decision.  Exit code 0 proceeds regardless of stdout (stdout is only
classified for logging); a non-zero exit proceeds only when the stderr
pattern matches; a timeout proceeds (fail open); any unexpected exception
does not proceed.  An unconfigured backend URI refuses before running
anything. -/
def upgrade_database_schema (backendStoreUri : PyStr) (outcome : MigrationOutcome) : Bool :=
  if backendStoreUri = [] then false
  else
    match outcome with
    | .completed rc _ err =>
      if rc = 0 then true
      else if stderrIndicatesMissingDatabase err then true
      else false
    | .timedOut => true
    | .raisedUnexpected => false

/-
Server supervisor (main.py).  The network is abstracted as an occupancy
oracle: occ host port is true exactly when a TCP connect to (host, port)
succeeds, which is what is_port_in_use (lines 199 to 211) observes via
connect_ex returning 0.
-/

/-- is_port_in_use (main.py lines 199 to 211): a connect attempt against the
given host and port, reported by the network oracle. -/
def is_port_in_use (occ : PyStr → Nat → Bool) (port : Nat) (host : PyStr) : Bool :=
  occ host port

/-- The host actually probed by the readiness wait (main.py line 228): only
the literal "0.0.0.0" is rewritten to loopback there. -/
def waitCheckHost (host : PyStr) : PyStr :=
  if host = pystr "0.0.0.0" then pystr "127.0.0.1" else host

/-- Modelled from the spec: the probe-host normalization the claim attributes
to the pre-start occupancy probe, rewriting both any-address forms
("0.0.0.0" and "::") to loopback.  Kept separate so it can be compared with
what start_mlflow_server actually does. -/
def specClaimedProbeHost (host : PyStr) : PyStr :=
  if host = pystr "0.0.0.0" ∨ host = pystr "::" then pystr "127.0.0.1" else host

/-- The default readiness timeout (main.py line 214, parameter default;
the caller at line 397 also passes 30). -/
def wait_default_timeout : Nat := 30

/-- wait_for_mlflow_server (main.py lines 214 to 241), one list entry per
one-second tick: the first component of a tick says whether poll() shows the
child already exited, the second whether the port probe succeeds.  Returns
the decision and the number of iterations executed; the ticks list has one
entry per second of the timeout, so its length is the timeout bound.
Each iteration checks child exit first, then the port. -/
def wait_for_mlflow_server : List (Bool × Bool) → Bool × Nat
  | [] => (false, 0)
  | (childExited, portOpen) :: rest =>
    if childExited then (false, 1)
    else if portOpen then (true, 1)
    else
      let r := wait_for_mlflow_server rest
      (r.1, r.2 + 1)

/-- start_mlflow_server (main.py lines 304 to 408), reduced to the decision
structure: probe the configured host and port as given (line 338 passes
settings.MLFLOW_HOST unchanged to is_port_in_use); if occupied, fail without
spawning; if the backend URI is empty, fail without spawning; otherwise the
child is spawned and the result is the readiness wait outcome.  The first
component is the returned success flag, the second records whether a child
process was spawned. -/
def start_mlflow_server (s : Settings) (occ : PyStr → Nat → Bool)
    (ticks : List (Bool × Bool)) : Bool × Bool :=
  let host := s.MLFLOW_HOST
  let port := effective_port s
  if is_port_in_use occ port host then (false, false)
  else if backend_store_uri s = [] then (false, false)
  else ((wait_for_mlflow_server ticks).1, true)

/-
Garbage-collection loop (main.py, _run_mlflow_gc_loop, lines 85 to 138).
Temporal model: time is measured in seconds from loop entry; setTime is the
instant the shared stop event becomes (and stays) set; each cycle is
abstracted as instantaneous (the gc subprocess duration is external).  The
loop checks the flag at the top of each iteration, runs a cycle, and then
performs the interruptible Event.wait(interval): the wait returns at
t + interval or at setTime, whichever comes first, which the min below
captures.  The result is the time at which the loop returns control (none
if the fuel bound is too small) together with the start times of every
cycle that began. -/
def run_mlflow_gc_loop (interval setTime : Nat) : Nat → Nat → Option Nat × List Nat
  | 0, _ => (none, [])
  | fuel + 1, t =>
    if setTime ≤ t then (some t, [])
    else
      let r := run_mlflow_gc_loop interval setTime fuel (min (t + interval) setTime)
      (r.1, t :: r.2)

/-
Termination coordinator (main.py, setup_signal_handlers, lines 141 to 176).
The handler body is modelled as the sequence of externally visible actions
it performs, plus the process exit code it ends with.
-/

/-- The externally visible steps the SIGINT/SIGTERM handler can take. -/
inductive ShutdownAction where
  | stopGcLoop
  | terminateChild
  | waitWithGrace (seconds : Nat)
  | killChild
  | waitAfterKill
  | credentialCleanup
deriving DecidableEq, Repr

/-- How the supervised child behaves when the handler runs: it was never
started, it exits within the grace period with some code, or it outlives the
grace period and must be killed. -/
inductive ChildSituation where
  | absent
  | exitsWithinGrace (code : Int)
  | hangsPastGrace
deriving DecidableEq, Repr

/-- The grace period passed to mlflow_process.wait at main.py line 159. -/
def terminationGraceSeconds : Nat := 10

/-- handle_termination (main.py lines 143 to 173): set the GC stop event;
if a child exists, terminate it and wait up to the grace period, killing and
waiting again on TimeoutExpired; then exit the process with code 0.
Returns the action sequence and the exit code. -/
def handle_termination (child : ChildSituation) : List ShutdownAction × Nat :=
  let childActions : List ShutdownAction :=
    match child with
    | .absent => []
    | .exitsWithinGrace _ =>
      [.terminateChild, .waitWithGrace terminationGraceSeconds]
    | .hangsPastGrace =>
      [.terminateChild, .waitWithGrace terminationGraceSeconds, .killChild, .waitAfterKill]
  (ShutdownAction.stopGcLoop :: childActions, 0)

/-
Credential provider (src/utils/gcp_auth.py).  Filesystem existence, the
secret store, json.loads validity, tempfile creation and the cloud SDK
default chain are oracle parameters.
-/

/-- Failures of the external auth collaborators (google.auth, Secret
Manager); the constructor choice never influences control flow, only
propagation. -/
inductive AuthError where
  | adcFailure
  | loadFileFailure
  | secretAccessFailure
deriving DecidableEq, Repr

/-- GCPAuthManager._setup_credentials (gcp_auth.py lines 37 to 57): when the
environment variable points at an existing file, load it; otherwise fall to
google.auth.default().  Any exception is logged and re-raised, so the Except
propagates. -/
def setupCredentialsOnInit (envCreds : Option PyStr) (fileExists : PyStr → Bool)
    (loadFromFile : PyStr → Except AuthError (PyStr × PyStr))
    (adcDefault : Except AuthError (PyStr × PyStr)) : Except AuthError (PyStr × PyStr) :=
  match envCreds with
  | some p => if fileExists p then loadFromFile p else adcDefault
  | none => adcDefault

/-- The constructed manager state (gcp_auth.py lines 23 to 35). -/
structure GCPAuthManager where
  credentials : PyStr
  project_id : PyStr
  temp_credentials_file : Option PyStr := none
deriving DecidableEq, Repr

/-- GCPAuthManager.__init__ (gcp_auth.py lines 23 to 35): calls
_setup_credentials with no handler of its own, so a resolution failure
aborts construction. -/
def initGCPAuthManager (envCreds : Option PyStr) (fileExists : PyStr → Bool)
    (loadFromFile : PyStr → Except AuthError (PyStr × PyStr))
    (adcDefault : Except AuthError (PyStr × PyStr)) : Except AuthError GCPAuthManager :=
  (setupCredentialsOnInit envCreds fileExists loadFromFile adcDefault).map
    fun cp => { credentials := cp.1, project_id := cp.2 }

/-- The module-level line gcp_auth_manager = GCPAuthManager()
(gcp_auth.py line 230): constructing the singleton is what importing the
module does, so the import fails exactly when the constructor does. -/
def importGcpAuthModule (envCreds : Option PyStr) (fileExists : PyStr → Bool)
    (loadFromFile : PyStr → Except AuthError (PyStr × PyStr))
    (adcDefault : Except AuthError (PyStr × PyStr)) : Except AuthError GCPAuthManager :=
  initGCPAuthManager envCreds fileExists loadFromFile adcDefault

/-- GCPAuthManager._get_credentials_from_secret_manager (gcp_auth.py lines
116 to 163): fetch the secret payload, require it to parse as JSON, write a
temp file and export it.  The inner json handler and the outer catch-all
both log and return None, so the result is a plain pair (credential path if
any, whether an error was logged) and never an exception. -/
def getCredentialsFromSecretManager (secretFetch : Except AuthError PyStr)
    (isValidJson : PyStr → Bool) (tempFile : PyStr) : Option PyStr × Bool :=
  match secretFetch with
  | .error _ => (none, true)
  | .ok payload =>
    if isValidJson payload then (some tempFile, false) else (none, true)

/-- The outcome of GCPAuthManager.setup_gcp_credentials, including which
fallback strategies were reached and the final state of the
GOOGLE_APPLICATION_CREDENTIALS environment entry. -/
structure CredResolution where
  result : Option PyStr
  envCreds : Option PyStr
  triedSecretStore : Bool
  triedAdc : Bool
  adcSucceeded : Bool
deriving DecidableEq, Repr

/-- Strategy 3 of setup_gcp_credentials (gcp_auth.py lines 96 to 114): the
ADC attempt runs only when interactive auth is enabled; its success still
returns None (the credential is active in-process, no file), and its failure
is caught, logged, and also yields None. -/
def credStrategyAdc (env1 : Option PyStr) (useInteractiveAuth : Bool)
    (adcDefault : Except AuthError (PyStr × PyStr)) : CredResolution :=
  if useInteractiveAuth then
    match adcDefault with
    | .ok _ =>
      { result := none, envCreds := env1, triedSecretStore := false,
        triedAdc := true, adcSucceeded := true }
    | .error _ =>
      { result := none, envCreds := env1, triedSecretStore := false,
        triedAdc := true, adcSucceeded := false }
  else
    { result := none, envCreds := env1, triedSecretStore := false,
      triedAdc := false, adcSucceeded := false }

/-- Strategies 2 and 3 of setup_gcp_credentials (gcp_auth.py lines 90 to
114): consult Secret Manager when a project is configured (a success exports
the temp file to the environment), otherwise or on failure fall to the ADC
strategy. -/
def credStrategies23 (env1 : Option PyStr) (gcpProject : PyStr)
    (useInteractiveAuth : Bool) (secretFetch : Except AuthError PyStr)
    (isValidJson : PyStr → Bool) (tempFile : PyStr)
    (adcDefault : Except AuthError (PyStr × PyStr)) : CredResolution :=
  if gcpProject ≠ [] then
    match getCredentialsFromSecretManager secretFetch isValidJson tempFile with
    | (some f, _) =>
      { result := some f, envCreds := some f, triedSecretStore := true,
        triedAdc := false, adcSucceeded := false }
    | (none, _) =>
      let r := credStrategyAdc env1 useInteractiveAuth adcDefault
      { r with triedSecretStore := true }
  else credStrategyAdc env1 useInteractiveAuth adcDefault

/-- GCPAuthManager.setup_gcp_credentials (gcp_auth.py lines 75 to 114)
together with _ensure_valid_credentials_path (lines 59 to 73): first drop a
configured-but-nonexistent environment path (and the matching settings
value), then try the explicit file, then Secret Manager, then ADC. -/
def setup_gcp_credentials (settingsCreds envCreds : Option PyStr)
    (gcpProject : PyStr) (useInteractiveAuth : Bool) (fileExists : PyStr → Bool)
    (secretFetch : Except AuthError PyStr) (isValidJson : PyStr → Bool)
    (tempFile : PyStr) (adcDefault : Except AuthError (PyStr × PyStr)) : CredResolution :=
  let envInvalid :=
    match envCreds with
    | some p => !(fileExists p)
    | none => false
  let env1 := if envInvalid then none else envCreds
  let settings1 := if envInvalid && (settingsCreds == envCreds) then none else settingsCreds
  match settings1 with
  | some p =>
    if fileExists p then
      { result := some p, envCreds := env1, triedSecretStore := false,
        triedAdc := false, adcSucceeded := false }
    else
      credStrategies23 env1 gcpProject useInteractiveAuth secretFetch isValidJson
        tempFile adcDefault
  | none =>
    credStrategies23 env1 gcpProject useInteractiveAuth secretFetch isValidJson
      tempFile adcDefault

/-
Top-level flow of main() (main.py lines 411 to 466), reduced to the gate
structure relevant to the claims: settings resolution happens first (when
src.config.settings is loaded); on failure nothing else runs.  Then the
migration gate, then start_mlflow_server.
-/

/-- The service start sequence: first component is whether start succeeded,
second whether start_mlflow_server was ever attempted. -/
def service_main (env : RawEnv) (migration : MigrationOutcome)
    (occ : PyStr → Nat → Bool) (ticks : List (Bool × Bool)) : Bool × Bool :=
  match mkSettings env with
  | .error _ => (false, false)
  | .ok s =>
    if upgrade_database_schema (backend_store_uri s) migration then
      ((start_mlflow_server s occ ticks).1, true)
    else (false, false)

/-
Concrete fixtures used by witnesses and counterexamples.
-/

/-- A settings value with the required fields filled in and every optional
field at its declared default. -/
def sampleSettingsBase : Settings :=
  { POSTGRES_HOST := pystr "db", POSTGRES_PORT := 5432, POSTGRES_DB := pystr "mlflow",
    POSTGRES_USER := pystr "u", POSTGRES_PASSWORD := pystr "pw",
    MLFLOW_BUCKET_LOCATION := pystr "gs://bucket", GCP_PROJECT := pystr "proj" }

/-- A network in which exactly the loopback address has a listener: the
situation of a listener bound to the any address and probed via loopback. -/
def loopbackOnlyOracle (host : PyStr) (_port : Nat) : Bool :=
  host == pystr "127.0.0.1"

/-- Settings whose folder location contains a path separator. -/
def c6CexSettings : Settings :=
  { sampleSettingsBase with MLFLOW_FOLDER_LOCATION := pystr "a/b" }

/-- Settings whose bucket location already ends in the folder segment. -/
def c6SegSettings : Settings :=
  { sampleSettingsBase with
      MLFLOW_BUCKET_LOCATION := pystr "gs://bucket/f",
      MLFLOW_FOLDER_LOCATION := pystr "f" }

/-- Settings carrying an explicit connection string wrapped in whitespace
and quotes. -/
def c7QuotedSettings : Settings :=
  { sampleSettingsBase with
      MLFLOW_POSTGRES_CONNECTION_STRING := some (pystr " 'postgresql://x' ") }

end MlflowService

namespace MlflowService

/-
Helper lemmas about the Python string model.
-/

theorem pySplit_ne_nil (sep : Char) (s : PyStr) : pySplit sep s ≠ [] := by
  cases s with
  | nil => simp [pySplit]
  | cons c rest =>
    rw [pySplit]
    cases h : pySplit sep rest with
    | nil => simp
    | cons a t => by_cases hc : c = sep <;> simp [hc]

theorem pySplit_append_sep (sep : Char) (a b : PyStr) :
    pySplit sep (a ++ sep :: b) = pySplit sep a ++ pySplit sep b := by
  induction a with
  | nil =>
    obtain ⟨h, t, hb⟩ := List.exists_cons_of_ne_nil (pySplit_ne_nil sep b)
    simp [pySplit, hb]
  | cons c a ih =>
    obtain ⟨h, t, ha⟩ := List.exists_cons_of_ne_nil (pySplit_ne_nil sep a)
    have ha2 : pySplit sep (a ++ sep :: b) = h :: (t ++ pySplit sep b) := by
      rw [ih, ha]; rfl
    by_cases hc : c = sep <;>
      simp [pySplit, ha, ha2, hc, List.cons_append]

theorem pySplit_of_not_mem (sep : Char) (s : PyStr) (h : sep ∉ s) :
    pySplit sep s = [s] := by
  induction s with
  | nil => rfl
  | cons c rest ih =>
    have hc : c ≠ sep := fun hcs => h (hcs ▸ List.mem_cons_self c rest)
    have hrest : sep ∉ rest := fun hm => h (List.mem_cons_of_mem c hm)
    rw [pySplit, ih hrest]
    simp [hc]

theorem pyEndsWith_exists (c : Char) (s : PyStr) (h : pyEndsWith c s = true) :
    ∃ t, s = t ++ [c] := by
  rcases List.eq_nil_or_concat s with hs | ⟨t, b, hs⟩
  · subst hs
    simp [pyEndsWith] at h
  · subst hs
    rw [List.concat_eq_append] at h ⊢
    refine ⟨t, ?_⟩
    have hb : b = c := by
      have h2 := h
      rw [pyEndsWith, List.getLast?_concat] at h2
      simpa using h2
    rw [hb]

/-- When the folder holds no separator, it is a path segment of the result
of appending it after a separator. -/
theorem mem_pySplit_append_self (bucket folder : PyStr) (hsep : '/' ∉ folder) :
    folder ∈ pySplit '/' (bucket ++ '/' :: folder) := by
  rw [pySplit_append_sep, pySplit_of_not_mem '/' folder hsep]
  simp

/-- Idempotence of the artifact join for a folder that is a single path
segment (no separator inside). -/
theorem artifactJoin_idem (bucket folder : PyStr) (hsep : '/' ∉ folder) :
    artifactJoin (artifactJoin bucket folder) folder = artifactJoin bucket folder := by
  by_cases hmem : folder ≠ [] ∧ folder ∈ pySplit '/' bucket
  · simp only [artifactJoin, if_pos hmem]
  · by_cases hne : folder = []
    · subst hne
      cases hEnd : pyEndsWith '/' bucket with
      | false =>
        have h1 : artifactJoin bucket [] = bucket ++ ['/'] := by
          simp only [artifactJoin, hEnd]
          simp
        have h2 : pyEndsWith '/' (bucket ++ ['/']) = true := by
          simp [pyEndsWith, List.getLast?_concat]
        rw [h1]
        simp only [artifactJoin, h2]
        simp
      | true =>
        have h1 : artifactJoin bucket [] = bucket := by
          simp only [artifactJoin, hEnd]
          simp
        rw [h1]
        exact h1
    · -- folder is nonempty but not yet a segment of the bucket
      cases hEnd : pyEndsWith '/' bucket with
      | false =>
        have h1 : artifactJoin bucket folder = bucket ++ '/' :: folder := by
          simp only [artifactJoin, if_neg hmem, hEnd]
          simp
        have h2 : folder ∈ pySplit '/' (bucket ++ '/' :: folder) :=
          mem_pySplit_append_self bucket folder hsep
        rw [h1]
        simp only [artifactJoin, if_pos (And.intro hne h2)]
      | true =>
        obtain ⟨t, ht⟩ := pyEndsWith_exists '/' bucket hEnd
        have h1 : artifactJoin bucket folder = bucket ++ folder := by
          simp only [artifactJoin, if_neg hmem, hEnd]
          simp
        have h2 : folder ∈ pySplit '/' (bucket ++ folder) := by
          rw [ht, List.append_assoc]
          exact mem_pySplit_append_self t folder hsep
        rw [h1]
        simp only [artifactJoin, if_pos (And.intro hne h2)]

end MlflowService

namespace MlflowService

/-
Claim C6 (artifact_root join).
-/

/-- C6 (counterexample): the claim quantifies over all configured pairs, but
with folder location "a/b" (which contains a separator) the join applied a
second time appends the suffix again, so the join is not idempotent as
claimed. -/
theorem C6_counterexample :
    artifactJoin (artifact_root c6CexSettings) c6CexSettings.MLFLOW_FOLDER_LOCATION
      ≠ artifact_root c6CexSettings := by decide

/-- C6 (amended): for every configured pair whose folder location contains no
path separator, the artifact_root join is idempotent (applying it to its own
output returns the output unchanged, so the folder suffix is never
duplicated), and when the nonempty folder location already appears as a path
segment of the bucket location the result is the bucket location unchanged. -/
theorem C6_artifact_root_join (s : Settings)
    (hsep : ('/' : Char) ∉ s.MLFLOW_FOLDER_LOCATION) :
    artifactJoin (artifact_root s) s.MLFLOW_FOLDER_LOCATION = artifact_root s ∧
    (s.MLFLOW_FOLDER_LOCATION ≠ [] →
      s.MLFLOW_FOLDER_LOCATION ∈ pySplit '/' s.MLFLOW_BUCKET_LOCATION →
      artifact_root s = s.MLFLOW_BUCKET_LOCATION) := by
  constructor
  · exact artifactJoin_idem _ _ hsep
  · intro hne hmem
    simp only [artifact_root, artifactJoin, if_pos (And.intro hne hmem)]

/-- C6 witness: the amended theorem evaluated at settings whose bucket
already ends in the folder segment. -/
theorem C6_witness :
    (('/' : Char) ∉ c6SegSettings.MLFLOW_FOLDER_LOCATION) ∧
    c6SegSettings.MLFLOW_FOLDER_LOCATION ≠ [] ∧
    c6SegSettings.MLFLOW_FOLDER_LOCATION ∈
      pySplit '/' c6SegSettings.MLFLOW_BUCKET_LOCATION ∧
    artifactJoin (artifact_root c6SegSettings) c6SegSettings.MLFLOW_FOLDER_LOCATION
      = artifact_root c6SegSettings ∧
    artifact_root c6SegSettings = c6SegSettings.MLFLOW_BUCKET_LOCATION :=
  ⟨by decide, by decide, by decide,
    (C6_artifact_root_join c6SegSettings (by decide)).1,
    (C6_artifact_root_join c6SegSettings (by decide)).2 (by decide) (by decide)⟩

/-
Claim C4 (readiness wait).
-/

theorem wait_iterations_le (ticks : List (Bool × Bool)) :
    (wait_for_mlflow_server ticks).2 ≤ ticks.length := by
  induction ticks with
  | nil => simp [wait_for_mlflow_server]
  | cons t rest ih =>
    obtain ⟨ex, op⟩ := t
    cases ex with
    | true => simp [wait_for_mlflow_server]
    | false =>
      cases op with
      | true => simp [wait_for_mlflow_server]
      | false =>
        simp only [wait_for_mlflow_server, Bool.false_eq_true, if_false, List.length_cons]
        exact Nat.succ_le_succ ih

theorem wait_step_quiet (rest : List (Bool × Bool)) :
    wait_for_mlflow_server ((false, false) :: rest)
      = ((wait_for_mlflow_server rest).1, (wait_for_mlflow_server rest).2 + 1) := by
  simp [wait_for_mlflow_server]

theorem wait_quiet_append (pre rest : List (Bool × Bool))
    (h : ∀ t ∈ pre, t = (false, false)) :
    wait_for_mlflow_server (pre ++ rest)
      = ((wait_for_mlflow_server rest).1,
         (wait_for_mlflow_server rest).2 + pre.length) := by
  induction pre with
  | nil => simp
  | cons t pre ih =>
    have ht : t = (false, false) := h t (List.mem_cons_self t pre)
    subst ht
    have h2 : ∀ t ∈ pre, t = (false, false) := fun t hm => h t (List.mem_cons_of_mem _ hm)
    have step : wait_for_mlflow_server (((false, false) :: pre) ++ rest)
        = ((wait_for_mlflow_server (pre ++ rest)).1,
           (wait_for_mlflow_server (pre ++ rest)).2 + 1) := wait_step_quiet (pre ++ rest)
    rw [step, ih h2]
    simp [Nat.add_assoc]

/-- C4: the readiness wait performs one probe per one-second tick, bounded
by the timeout (the number of ticks; the declared default is 30 seconds);
on each tick it first checks whether the child already exited and, on the
first tick where that holds (with no earlier success), returns failure
immediately after that tick; the first tick whose port probe succeeds (with
the child still alive) ends the wait with success after that tick. -/
theorem C4_readiness_wait :
    wait_default_timeout = 30 ∧
    (∀ ticks : List (Bool × Bool), (wait_for_mlflow_server ticks).2 ≤ ticks.length) ∧
    (∀ (pre post : List (Bool × Bool)) (op : Bool), (∀ t ∈ pre, t = (false, false)) →
      wait_for_mlflow_server (pre ++ (true, op) :: post) = (false, pre.length + 1)) ∧
    (∀ (pre post : List (Bool × Bool)), (∀ t ∈ pre, t = (false, false)) →
      wait_for_mlflow_server (pre ++ (false, true) :: post) = (true, pre.length + 1)) := by
  refine ⟨rfl, wait_iterations_le, ?_, ?_⟩
  · intro pre post op h
    rw [wait_quiet_append pre _ h]
    simp [wait_for_mlflow_server, Nat.add_comm]
  · intro pre post h
    rw [wait_quiet_append pre _ h]
    simp [wait_for_mlflow_server, Nat.add_comm]

/-- C4 witness: two ticks; the child exit on the second tick stops the wait
at iteration 2 with failure, and a port success on the second tick stops it
at iteration 2 with success. -/
theorem C4_witness :
    (∀ t ∈ [((false : Bool), (false : Bool))], t = (false, false)) ∧
    wait_for_mlflow_server [(false, false), (true, false)] = (false, 2) ∧
    wait_for_mlflow_server [(false, false), (false, true)] = (true, 2) :=
  ⟨by decide,
    C4_readiness_wait.2.2.1 [(false, false)] [] false (by decide),
    C4_readiness_wait.2.2.2 [(false, false)] [] (by decide)⟩

/-
Claim C5 (GC loop cancellation).
-/

theorem run_mlflow_gc_loop_spec (interval setTime : Nat) (hi : 1 ≤ interval) :
    ∀ (fuel t : Nat), t ≤ setTime → setTime < t + fuel →
      (run_mlflow_gc_loop interval setTime fuel t).1 = some setTime ∧
      ∀ s ∈ (run_mlflow_gc_loop interval setTime fuel t).2, s < setTime := by
  intro fuel
  induction fuel with
  | zero => intro t h1 h2; omega
  | succ fuel ih =>
    intro t h1 h2
    by_cases hst : setTime ≤ t
    · have heq : t = setTime := Nat.le_antisymm h1 hst
      subst heq
      simp [run_mlflow_gc_loop]
    · have ht : t < setTime := Nat.lt_of_not_le hst
      have hnext1 : min (t + interval) setTime ≤ setTime := Nat.min_le_right _ _
      have hnext2 : setTime < min (t + interval) setTime + fuel := by
        have hmin : t + 1 ≤ min (t + interval) setTime :=
          Nat.le_min.mpr ⟨by omega, by omega⟩
        omega
      obtain ⟨ha, hb⟩ := ih (min (t + interval) setTime) hnext1 hnext2
      constructor
      · simp only [run_mlflow_gc_loop, if_neg hst]
        exact ha
      · intro s hs
        simp only [run_mlflow_gc_loop, if_neg hst, List.mem_cons] at hs
        rcases hs with hs | hs
        · omega
        · exact hb s hs

/-- C5: once the stop flag is set (at time setTime), the loop never begins a
new cleanup cycle (every recorded cycle start time is strictly before
setTime, because the flag is checked at the top of each iteration), and
because the inter-cycle Event.wait is interruptible by the same flag the
loop returns control exactly at setTime, i.e. with zero sleep latency, well
within the one-interval bound the claim states.  Cycle execution itself is
abstracted as instantaneous; fuel only bounds the recursion and any fuel
above setTime suffices. -/
theorem C5_gc_loop_stop (interval setTime fuel : Nat) (hi : 1 ≤ interval)
    (hf : setTime < fuel) :
    (run_mlflow_gc_loop interval setTime fuel 0).1 = some setTime ∧
    ∀ s ∈ (run_mlflow_gc_loop interval setTime fuel 0).2, s < setTime :=
  run_mlflow_gc_loop_spec interval setTime hi fuel 0 (Nat.zero_le _) (by omega)

/-- C5 witness: a 20-second interval with the stop flag set at 45 seconds;
the loop runs cycles at 0, 20 and 40 seconds and returns at 45. -/
theorem C5_witness :
    (1 ≤ 20) ∧ (45 < 100) ∧
    (run_mlflow_gc_loop 20 45 100 0).1 = some 45 ∧
    ∀ s ∈ (run_mlflow_gc_loop 20 45 100 0).2, s < 45 :=
  ⟨by decide, by decide,
    (C5_gc_loop_stop 20 45 100 (by decide) (by decide)).1,
    (C5_gc_loop_stop 20 45 100 (by decide) (by decide)).2⟩

end MlflowService

namespace MlflowService

/-
Claim C1 (schema migrator decision policy).
-/

/-- C1: given a non-empty backend store URI, the migrator proceeds on exit
code 0 whatever stdout holds, proceeds on a non-zero exit whose stderr
matches the missing-database pattern (the stripped lowercased stderr
contains "does not exist" or "operationalerror"), refuses on every other
non-zero exit, proceeds on the 60-second timeout, and refuses on any
unexpected exception. -/
theorem C1_migration_decision (uri : PyStr) (huri : uri ≠ []) :
    (∀ stdout stderr, upgrade_database_schema uri (.completed 0 stdout stderr) = true) ∧
    (∀ (rc : Int) stdout stderr, rc ≠ 0 → stderrIndicatesMissingDatabase stderr = true →
      upgrade_database_schema uri (.completed rc stdout stderr) = true) ∧
    (∀ (rc : Int) stdout stderr, rc ≠ 0 → stderrIndicatesMissingDatabase stderr = false →
      upgrade_database_schema uri (.completed rc stdout stderr) = false) ∧
    upgrade_database_schema uri .timedOut = true ∧
    upgrade_database_schema uri .raisedUnexpected = false := by
  refine ⟨?_, ?_, ?_, ?_, ?_⟩
  · intro stdout stderr
    simp [upgrade_database_schema, huri]
  · intro rc stdout stderr hrc hpat
    simp [upgrade_database_schema, huri, hrc, hpat]
  · intro rc stdout stderr hrc hpat
    simp [upgrade_database_schema, huri, hrc, hpat]
  · simp [upgrade_database_schema, huri]
  · simp [upgrade_database_schema, huri]

/-- C1 witness: a concrete URI with a non-zero exit whose stderr reports a
missing database proceeds, evaluated through the theorem. -/
theorem C1_witness :
    (pystr "postgresql://u@h/db" ≠ []) ∧
    ((1 : Int) ≠ 0) ∧
    stderrIndicatesMissingDatabase (pystr "FATAL: database mlflow does not exist") = true ∧
    upgrade_database_schema (pystr "postgresql://u@h/db")
      (.completed 1 [] (pystr "FATAL: database mlflow does not exist")) = true :=
  ⟨by decide, by decide, by decide,
    (C1_migration_decision (pystr "postgresql://u@h/db") (by decide)).2.1 1 []
      (pystr "FATAL: database mlflow does not exist") (by decide) (by decide)⟩

/-
Claim C2 (termination handler).
-/

/-- C2 (counterexample): in the run where the child is running and exits
within the grace period, the handler performs no credential-cleanup step,
contrary to the claim that step (3) invokes credential cleanup: main.py
never references the credential manager, it only logs a cleanup message. -/
theorem C2_counterexample :
    ShutdownAction.credentialCleanup ∉ (handle_termination (.exitsWithinGrace 0)).1 ∧
    (handle_termination (.exitsWithinGrace 0)).2 = 0 := by decide

/-- C2 (amended): on an interrupt or terminate signal the handler signals
the GC loop to stop, then, if a child exists, terminates it and waits up to
the 10-second grace period (force-killing and waiting again when the grace
period expires), and exits the process with code 0; it is a no-op on an
absent child; it never invokes credential cleanup. -/
theorem C2_termination_handler_amended (child : ChildSituation) :
    handle_termination child =
      (ShutdownAction.stopGcLoop ::
        (match child with
         | .absent => []
         | .exitsWithinGrace _ =>
           [ShutdownAction.terminateChild,
            ShutdownAction.waitWithGrace terminationGraceSeconds]
         | .hangsPastGrace =>
           [ShutdownAction.terminateChild,
            ShutdownAction.waitWithGrace terminationGraceSeconds,
            ShutdownAction.killChild, ShutdownAction.waitAfterKill]), 0) ∧
    ShutdownAction.credentialCleanup ∉ (handle_termination child).1 := by
  cases child with
  | absent => exact ⟨rfl, by decide⟩
  | exitsWithinGrace code => exact ⟨rfl, by simp [handle_termination]⟩
  | hangsPastGrace => exact ⟨rfl, by decide⟩

/-
Claim C3 (pre-start port probe).
-/

/-- C3 (counterexample): with the bind host configured as the any address
and a listener reachable only via loopback, the claimed normalization would
see the port as occupied and forbid the spawn, yet start_mlflow_server
probes the raw configured host (main.py line 338), sees the port as free,
and spawns the child. -/
theorem C3_counterexample :
    specClaimedProbeHost sampleSettingsBase.MLFLOW_HOST = pystr "127.0.0.1" ∧
    loopbackOnlyOracle (pystr "127.0.0.1") (effective_port sampleSettingsBase) = true ∧
    start_mlflow_server sampleSettingsBase loopbackOnlyOracle [(false, true)]
      = (true, true) := by decide

/-- C3 (amended): the pre-start probe connects to the configured bind host
and port without normalization; whenever that probe reports the port
occupied, start_mlflow_server returns failure and no child is spawned. -/
theorem C3_port_probe_amended (s : Settings) (occ : PyStr → Nat → Bool)
    (ticks : List (Bool × Bool))
    (hocc : occ s.MLFLOW_HOST (effective_port s) = true) :
    start_mlflow_server s occ ticks = (false, false) := by
  simp [start_mlflow_server, is_port_in_use, hocc]

/-- C3 witness: a fully occupied network makes the start attempt fail with
no spawn. -/
theorem C3_witness :
    ((fun (_ : PyStr) (_ : Nat) => true) sampleSettingsBase.MLFLOW_HOST
        (effective_port sampleSettingsBase) = true) ∧
    start_mlflow_server sampleSettingsBase (fun _ _ => true) [] = (false, false) :=
  ⟨rfl, C3_port_probe_amended sampleSettingsBase (fun _ _ => true) [] rfl⟩

end MlflowService

namespace MlflowService

/-
Claim C7 (backend_store_uri resolution).
-/

theorem mkSettings_missing_user (env : RawEnv) (hu : env.POSTGRES_USER = none) :
    mkSettings env = .error .missingRequiredField := by
  obtain ⟨tp, mh, po, ph, ppo, pdb, pu, ppw, pcs, bl, fl, gp, gac, uia⟩ := env
  have hpu : pu = none := hu
  subst hpu
  cases ph <;> cases ppo <;> cases pdb <;> cases ppw <;> cases bl <;> cases gp <;> rfl

/-- C7: the resolved backend_store_uri is the explicit connection string
with whitespace and then quote characters stripped from both ends whenever
that string is present and non-blank; when it is absent or blank, the URI
is composed from the discrete PostgreSQL fields; and when the explicit
string and a required discrete field are both missing from the environment,
settings resolution fails with ConfigError and the service flow never
reaches a server start attempt. -/
theorem C7_backend_store_uri_resolution :
    (∀ (s : Settings) (cs : PyStr), s.MLFLOW_POSTGRES_CONNECTION_STRING = some cs →
      pyStrip cs ≠ [] →
      backend_store_uri s = pyStripChars quoteChars (pyStrip cs)) ∧
    (∀ (s : Settings), s.MLFLOW_POSTGRES_CONNECTION_STRING = none →
      backend_store_uri s = composedPostgresUri s) ∧
    (∀ (s : Settings) (cs : PyStr), s.MLFLOW_POSTGRES_CONNECTION_STRING = some cs →
      pyStrip cs = [] →
      backend_store_uri s = composedPostgresUri s) ∧
    (∀ (env : RawEnv), env.MLFLOW_POSTGRES_CONNECTION_STRING = none →
      env.POSTGRES_USER = none →
      mkSettings env = .error .missingRequiredField ∧
      ∀ migration occ ticks, (service_main env migration occ ticks).2 = false) := by
  refine ⟨?_, ?_, ?_, ?_⟩
  · intro s cs hcs hstrip
    have hne : cs ≠ [] := by
      intro h
      subst h
      exact hstrip rfl
    simp [backend_store_uri, hcs, hne, hstrip]
  · intro s hnone
    simp [backend_store_uri, hnone]
  · intro s cs hcs hstrip
    simp [backend_store_uri, hcs, hstrip]
  · intro env hcsnone huser
    have herr := mkSettings_missing_user env huser
    refine ⟨herr, ?_⟩
    intro migration occ ticks
    simp [service_main, herr]

/-- C7 witness: a quoted, whitespace-wrapped explicit string resolves to its
stripped core; settings without a connection string resolve to the composed
URI; an empty environment fails resolution and never attempts a start. -/
theorem C7_witness :
    c7QuotedSettings.MLFLOW_POSTGRES_CONNECTION_STRING
      = some (pystr " 'postgresql://x' ") ∧
    pyStrip (pystr " 'postgresql://x' ") ≠ [] ∧
    backend_store_uri c7QuotedSettings
      = pyStripChars quoteChars (pyStrip (pystr " 'postgresql://x' ")) ∧
    pyStripChars quoteChars (pyStrip (pystr " 'postgresql://x' "))
      = pystr "postgresql://x" ∧
    backend_store_uri sampleSettingsBase = composedPostgresUri sampleSettingsBase ∧
    mkSettings {} = .error .missingRequiredField ∧
    (service_main {} .timedOut (fun _ _ => false) []).2 = false :=
  ⟨rfl, by decide,
    C7_backend_store_uri_resolution.1 c7QuotedSettings (pystr " 'postgresql://x' ")
      rfl (by decide),
    by decide,
    C7_backend_store_uri_resolution.2.1 sampleSettingsBase rfl,
    (C7_backend_store_uri_resolution.2.2.2 {} rfl rfl).1,
    (C7_backend_store_uri_resolution.2.2.2 {} rfl rfl).2 .timedOut (fun _ _ => false) []⟩

/-
Claim C8 (secret-store strategy fails soft).
-/

/-- C8: the secret-store credential strategy returns no credential and logs
the failure both when the fetched payload is not well-formed JSON and when
retrieval itself fails; its result type is a plain pair, mirroring the
catch-all handler in the source that converts every error into a
no-credential return instead of propagating it. -/
theorem C8_secret_strategy_fails_soft (secretFetch : Except AuthError PyStr)
    (isValidJson : PyStr → Bool) (tempFile : PyStr) :
    (∀ payload, secretFetch = .ok payload → isValidJson payload = false →
      getCredentialsFromSecretManager secretFetch isValidJson tempFile = (none, true)) ∧
    (∀ e, secretFetch = .error e →
      getCredentialsFromSecretManager secretFetch isValidJson tempFile = (none, true)) := by
  constructor
  · intro payload hp hv
    subst hp
    simp [getCredentialsFromSecretManager, hv]
  · intro e he
    subst he
    simp [getCredentialsFromSecretManager]

/-- C8 witness: a payload rejected by the JSON validator yields no
credential with the failure logged. -/
theorem C8_witness :
    ((Except.ok (pystr "not json") : Except AuthError PyStr) = .ok (pystr "not json")) ∧
    ((fun (_ : PyStr) => false) (pystr "not json") = false) ∧
    getCredentialsFromSecretManager (.ok (pystr "not json")) (fun _ => false)
      (pystr "/tmp/c.json") = (none, true) :=
  ⟨rfl, rfl,
    (C8_secret_strategy_fails_soft (.ok (pystr "not json")) (fun _ => false)
      (pystr "/tmp/c.json")).1 (pystr "not json") rfl rfl⟩

end MlflowService

namespace MlflowService

/-
Claim C9 (nonexistent credentials file falls through).
-/

/-- C9: when the configured credentials-file path does not exist on disk,
credential resolution behaves exactly as it would with no configured path at
all — it falls through past the explicit-file strategy; moreover, with a
configured project the secret-store strategy is reached, and when the
secret-store strategy yields nothing and interactive auth is enabled the
ambient default strategy is reached.  No failure is raised: the resolution
is a total function into a plain result record. -/
theorem C9_missing_credentials_path_falls_through (p gcpProject : PyStr)
    (useInteractiveAuth : Bool) (fileExists : PyStr → Bool)
    (secretFetch : Except AuthError PyStr) (isValidJson : PyStr → Bool)
    (tempFile : PyStr) (adcDefault : Except AuthError (PyStr × PyStr))
    (hmiss : fileExists p = false) :
    setup_gcp_credentials (some p) (some p) gcpProject useInteractiveAuth fileExists
        secretFetch isValidJson tempFile adcDefault
      = setup_gcp_credentials none none gcpProject useInteractiveAuth fileExists
          secretFetch isValidJson tempFile adcDefault ∧
    (gcpProject ≠ [] →
      (setup_gcp_credentials (some p) (some p) gcpProject useInteractiveAuth fileExists
          secretFetch isValidJson tempFile adcDefault).triedSecretStore = true) ∧
    (gcpProject ≠ [] → useInteractiveAuth = true →
      (getCredentialsFromSecretManager secretFetch isValidJson tempFile).1 = none →
      (setup_gcp_credentials (some p) (some p) gcpProject useInteractiveAuth fileExists
          secretFetch isValidJson tempFile adcDefault).triedAdc = true) := by
  have hexpand : setup_gcp_credentials (some p) (some p) gcpProject useInteractiveAuth
      fileExists secretFetch isValidJson tempFile adcDefault
      = credStrategies23 none gcpProject useInteractiveAuth secretFetch isValidJson
          tempFile adcDefault := by
    simp [setup_gcp_credentials, hmiss]
  have hexpand2 : setup_gcp_credentials none none gcpProject useInteractiveAuth
      fileExists secretFetch isValidJson tempFile adcDefault
      = credStrategies23 none gcpProject useInteractiveAuth secretFetch isValidJson
          tempFile adcDefault := by
    simp [setup_gcp_credentials]
  refine ⟨hexpand.trans hexpand2.symm, ?_, ?_⟩
  · intro hproj
    rw [hexpand]
    simp only [credStrategies23, if_pos hproj]
    rcases hg : getCredentialsFromSecretManager secretFetch isValidJson tempFile
      with ⟨fst, snd⟩
    cases fst <;> simp
  · intro hproj hauth hnone
    rw [hexpand]
    simp only [credStrategies23, if_pos hproj]
    rcases hg : getCredentialsFromSecretManager secretFetch isValidJson tempFile
      with ⟨fst, snd⟩
    rw [hg] at hnone
    simp only at hnone
    subst hnone
    simp [credStrategyAdc, hauth]
    cases adcDefault <;> simp

/-- C9 witness: a missing file path with a configured project, failing
secret retrieval, and interactive auth enabled reaches both fallback
strategies and matches the absent-path resolution. -/
theorem C9_witness :
    ((fun (_ : PyStr) => false) (pystr "/missing.json") = false) ∧
    (pystr "proj" ≠ []) ∧
    setup_gcp_credentials (some (pystr "/missing.json")) (some (pystr "/missing.json"))
        (pystr "proj") true (fun _ => false) (.error .secretAccessFailure)
        (fun _ => true) (pystr "/tmp/t.json") (.error .adcFailure)
      = setup_gcp_credentials none none (pystr "proj") true (fun _ => false)
          (.error .secretAccessFailure) (fun _ => true) (pystr "/tmp/t.json")
          (.error .adcFailure) ∧
    (setup_gcp_credentials (some (pystr "/missing.json")) (some (pystr "/missing.json"))
        (pystr "proj") true (fun _ => false) (.error .secretAccessFailure)
        (fun _ => true) (pystr "/tmp/t.json") (.error .adcFailure)).triedSecretStore
      = true ∧
    (setup_gcp_credentials (some (pystr "/missing.json")) (some (pystr "/missing.json"))
        (pystr "proj") true (fun _ => false) (.error .secretAccessFailure)
        (fun _ => true) (pystr "/tmp/t.json") (.error .adcFailure)).triedAdc = true :=
  ⟨rfl, by decide,
    (C9_missing_credentials_path_falls_through (pystr "/missing.json") (pystr "proj")
      true (fun _ => false) (.error .secretAccessFailure) (fun _ => true)
      (pystr "/tmp/t.json") (.error .adcFailure) rfl).1,
    (C9_missing_credentials_path_falls_through (pystr "/missing.json") (pystr "proj")
      true (fun _ => false) (.error .secretAccessFailure) (fun _ => true)
      (pystr "/tmp/t.json") (.error .adcFailure) rfl).2.1 (by decide),
    (C9_missing_credentials_path_falls_through (pystr "/missing.json") (pystr "proj")
      true (fun _ => false) (.error .secretAccessFailure) (fun _ => true)
      (pystr "/tmp/t.json") (.error .adcFailure) rfl).2.2 (by decide) rfl rfl⟩

/-
Claim C10 (constructor propagates credential resolution failure).
-/

/-- C10: when the credentials environment variable names a file that does
not exist and the ambient default chain fails, the GCPAuthManager
constructor propagates the failure instead of failing soft, and since the
module creates its singleton instance at import time, importing the module
fails with the same error. -/
theorem C10_constructor_propagates_failure (p : PyStr) (fileExists : PyStr → Bool)
    (loadFromFile : PyStr → Except AuthError (PyStr × PyStr)) (e : AuthError)
    (hmiss : fileExists p = false) :
    initGCPAuthManager (some p) fileExists loadFromFile (.error e) = .error e ∧
    importGcpAuthModule (some p) fileExists loadFromFile (.error e) = .error e := by
  have h : setupCredentialsOnInit (some p) fileExists loadFromFile (.error e)
      = .error e := by
    simp [setupCredentialsOnInit, hmiss]
  constructor
  · simp [initGCPAuthManager, h, Except.map]
  · simp [importGcpAuthModule, initGCPAuthManager, h, Except.map]

/-- C10 witness: a concrete missing path with a failing default chain makes
both the constructor and the module import fail with that error. -/
theorem C10_witness :
    ((fun (_ : PyStr) => false) (pystr "/gone.json") = false) ∧
    initGCPAuthManager (some (pystr "/gone.json")) (fun _ => false)
      (fun _ => .error .loadFileFailure) (.error .adcFailure) = .error .adcFailure ∧
    importGcpAuthModule (some (pystr "/gone.json")) (fun _ => false)
      (fun _ => .error .loadFileFailure) (.error .adcFailure) = .error .adcFailure :=
  ⟨rfl,
    (C10_constructor_propagates_failure (pystr "/gone.json") (fun _ => false)
      (fun _ => .error .loadFileFailure) .adcFailure rfl).1,
    (C10_constructor_propagates_failure (pystr "/gone.json") (fun _ => false)
      (fun _ => .error .loadFileFailure) .adcFailure rfl).2⟩

end MlflowService
